import Mathlib

/-!
Verification of the TCP connection state machine of the `ethox` network stack
(`src/ethox/src/layer/tcp/connection.rs`), as a shallow embedding.

Machine integers are modelled as `Nat` with explicit reductions modulo `2^32`
(sequence numbers, `u32` saturating arithmetic) or `2^16` (`as u16` casts), and
`Instant`/`Duration` as `Int` milliseconds.  Rust operations that can abort
(`unimplemented!`, `assert!`, `unreachable!`) are modelled by returning
`Option.none` from the enclosing function.  `debug_assert!` statements compile
out in release builds and are modelled as no-ops.
-/

namespace Ethox

/-! ## Sequence arithmetic

Modelled from the spec (§4.1): 32-bit modular sequence numbers with windowed
ordering.  The wire module defining `tcp::SeqNumber` is not part of the source
excerpt; the spec fixes the semantics exactly: `a < b` iff
`(b − a) mod 2³² ∈ (0, 2³¹)` and `contains_in_window(base, probe, w)` iff
`(probe − base) mod 2³² < w`, with unchecked-wrap addition and subtraction. -/

/-- The sequence-number modulus `2^32`. -/
def seqMod : Nat := 4294967296

/-- Half the sequence space, `2^31`: the forward half of the windowed order. -/
def seqHalf : Nat := 2147483648

/-- Largest `u32` value. -/
def u32max : Nat := 4294967295

/-- Modelled from the spec: wrapping 32-bit addition of sequence numbers. -/
def seqAdd (a b : Nat) : Nat := (a + b) % seqMod

/-- Modelled from the spec: wrapping 32-bit subtraction `(a - b) mod 2^32`. -/
def seqSub (a b : Nat) : Nat := (a % seqMod + seqMod - b % seqMod) % seqMod

/-- Modelled from the spec: windowed strict order `a < b`. -/
def seqLtb (a b : Nat) : Bool := 0 < seqSub b a && seqSub b a < seqHalf

/-- Modelled from the spec: windowed order `a ≤ b`, i.e. `(b − a) mod 2³² < 2³¹`. -/
def seqLeb (a b : Nat) : Bool := seqSub b a < seqHalf

/-- Modelled from the spec: `SeqNumber::contains_in_window(base, probe, w)`. -/
def containsInWindow (base probe w : Nat) : Bool := seqSub probe base < w

/-- Saturating `u32` addition. -/
def u32satAdd (a b : Nat) : Nat := min (a + b) u32max

/-- Saturating `u32` doubling, `u32::saturating_mul(2)`. -/
def u32satMul2 (a : Nat) : Nat := min (a * 2) u32max

/-! ## Time

Modelled from the spec (§3): monotonic `Instant`/`Duration` in milliseconds and
`Expiration = Never | When(Instant)` where `Never` behaves as `+∞` for `min`
and comparisons. -/

/-- Modelled from the spec: `Expiration` is either `Never` or `When(Instant)`. -/
inductive Expiration where
  | never : Expiration
  | when (t : Int) : Expiration
deriving DecidableEq

/-- Modelled from the spec: minimum of two expirations, `Never` being `+∞`. -/
def Expiration.min : Expiration → Expiration → Expiration
  | .never, b => b
  | .when a, .never => .when a
  | .when a, .when b => .when (Min.min a b)

/-- Modelled from the spec: order on expirations with `Never` as `+∞`. -/
def Expiration.leb : Expiration → Expiration → Bool
  | _, .never => true
  | .never, .when _ => false
  | .when a, .when b => a ≤ b

namespace tcp

/-- Sequence numbers are `u32` values; the embedding keeps them as `Nat`
reduced modulo `2^32`. -/
abbrev SeqNumber := Nat

/-- TCP header flags relevant to the connection machine (`tcp::Flags`).
The wire module is not part of the source excerpt; the machine only reads
`syn()`, `fin()`, `rst()` and writes `set_fin`, `Flags::{SYN, FIN, RST}` and
`Flags::default()`. -/
structure Flags where
  syn : Bool
  fin : Bool
  rst : Bool
deriving DecidableEq

/-- The all-clear flags value, `tcp::Flags::default()`. -/
def Flags.default : Flags := ⟨false, false, false⟩

/-- The pure-RST flags value, `tcp::Flags::RST`. -/
def Flags.RST : Flags := ⟨false, false, true⟩

/-- The pure-SYN flags value, `tcp::Flags::SYN`. -/
def Flags.SYN : Flags := ⟨true, false, false⟩

/-- The pure-FIN flags value, `tcp::Flags::FIN`. -/
def Flags.FIN : Flags := ⟨false, true, false⟩

/-- Parsed TCP segment representation, `tcp::Repr` (spec §6). -/
structure Repr where
  src_port : Nat
  dst_port : Nat
  seq_number : SeqNumber
  flags : Flags
  ack_number : Option SeqNumber
  window_len : Nat
  window_scale : Option Nat
  max_seg_size : Option Nat
  sack_permitted : Bool
  sack_ranges : List (Option (Nat × Nat))
  payload_len : Nat
deriving DecidableEq

/-- Modelled from the spec: `tcp::Repr::sequence_len`, the sequence space a
segment occupies — its payload plus one for SYN and one for FIN (the in-source
`ReceivedSegment::sequence_len` computes the same quantity; spec §4.3 uses
`segment.seq + sequence_len`). -/
def Repr.sequence_len (r : Repr) : Nat :=
  r.payload_len + (if r.flags.syn then 1 else 0) + (if r.flags.fin then 1 else 0)

/-- Well-formedness of a parsed segment: every field fits its wire width and
the window-scale option is at most 14.  Modelled from the spec (§3, §4.7): the
wire parsing layer delivers `u32`/`u16` fields and `window_scale ∈ [0, 14]`. -/
def Repr.Wf (r : Repr) : Prop :=
  r.seq_number < seqMod ∧
  (∀ a, r.ack_number = some a → a < seqMod) ∧
  r.payload_len < 65536 ∧
  r.window_len < 65536 ∧
  (∀ w, r.window_scale = some w → w ≤ 14) ∧
  (∀ m, r.max_seg_size = some m → m < 65536)

end tcp

/-! ## Endpoint-side interface

`FourTuple` and `EntryKey` live in the endpoint module, which is not part of
the source excerpt.  Modelled from the spec (§4.2): an `EntryKey` exposes
`four_tuple()`, `set_four_tuple(new)` and `initial_seq_num(Instant)`, the last
drawing an ISN from a generator keyed on the entry's current four-tuple. -/

/-- IP addresses are opaque to the connection machine. -/
abbrev Address := Nat

/-- The connection identity (spec §3). -/
structure FourTuple where
  local_ip : Address
  remote : Address
  local_port : Nat
  remote_port : Nat
deriving DecidableEq

/-- Modelled from the spec: the `EntryKey` handle — the current four-tuple of
the slot together with the endpoint's ISN generator. -/
structure EntryKey where
  tuple : FourTuple
  isnGen : FourTuple → Int → Nat

/-- Modelled from the spec: `EntryKey::four_tuple`. -/
def EntryKey.four_tuple (e : EntryKey) : FourTuple := e.tuple

/-- Modelled from the spec: `EntryKey::set_four_tuple`. -/
def EntryKey.set_four_tuple (e : EntryKey) (t : FourTuple) : EntryKey :=
  { e with tuple := t }

/-- Modelled from the spec: `EntryKey::initial_seq_num`, a `u32` ISN drawn for
the entry's current four-tuple at the given time. -/
def EntryKey.initial_seq_num (e : EntryKey) (time : Int) : tcp.SeqNumber :=
  e.isnGen e.tuple time % seqMod

/-! ## Connection state (`connection.rs` data model) -/

/-- State enum of the state machine (`State`). -/
inductive State where
  | Closed
  | Listen
  | SynSent
  | SynReceived
  | Established
  | FinWait
  | Closing
  | TimeWait
  | CloseWait
  | LastAck
deriving DecidableEq

/-- TCP Reno flow control state (`Flow`). -/
structure Flow where
  ssthresh : Nat
  congestion_window : Nat
  recover : tcp.SeqNumber
deriving DecidableEq

/-- The sending half of the connection state (`Send`). -/
structure Send where
  unacked : tcp.SeqNumber
  next : tcp.SeqNumber
  last_time : Int
  unsent : Nat
  window : Nat
  window_scale : Nat
  initial_seq : tcp.SeqNumber
deriving DecidableEq

/-- The receiving half of the connection state (`Receive`). -/
structure Receive where
  next : tcp.SeqNumber
  acked : tcp.SeqNumber
  last_time : Int
  window : Nat
  window_scale : Nat
  initial_seq : tcp.SeqNumber
deriving DecidableEq

/-- The per-connection control block (`Connection`). -/
structure Connection where
  current : State
  previous : State
  flow_control : Flow
  receive_window : Nat
  sender_maximum_segment_size : Nat
  receiver_maximum_segment_size : Nat
  last_ack_receive_offset : tcp.SeqNumber
  ack_timer : Expiration
  ack_timeout : Int
  retransmission_timer : Int
  retransmission_timeout : Int
  restart_timeout : Int
  selective_acknowledgements : Bool
  duplicate_ack : Nat
  send : Send
  recv : Receive
deriving DecidableEq

/-- A descriptor of an accepted incoming segment (`ReceivedSegment`). -/
structure ReceivedSegment where
  syn : Bool
  fin : Bool
  data_len : Nat
  begin_seq : tcp.SeqNumber
  timestamp : Int
deriving DecidableEq

/-- Output signals of the model (`Signals`). -/
structure Signals where
  delete : Bool
  reset : Bool
  receive : Option ReceivedSegment
  may_send : Bool
  answer : Option tcp.Repr
deriving DecidableEq

/-- The all-empty signals value, `Signals::default()`. -/
def Signals.default : Signals := ⟨false, false, none, false, none⟩

/-- A descriptor of the transmission buffer (`AvailableBytes`). -/
structure AvailableBytes where
  fin : Bool
  total : Nat
deriving DecidableEq

/-- An ingoing communication (`InPacket`); the Rust field `from` is spelled
`fromAddr` because `from` is reserved in Lean. -/
structure InPacket where
  segment : tcp.Repr
  fromAddr : Address
  time : Int
deriving DecidableEq

/-- An outgoing segment (`Segment`); `range` is the half-open index range
`start..stop` into the caller's retransmit buffer. -/
structure Segment where
  repr : tcp.Repr
  range : Nat × Nat
deriving DecidableEq

/-- Output signals of the transmit half (`OutSignals`). -/
structure OutSignals where
  delete : Bool
  segment : Option Segment
deriving DecidableEq

/-- No segment and keep the tcb (`OutSignals::none`). -/
def OutSignals.none : OutSignals := ⟨false, Option.none⟩

/-- Send a segment but do not delete (`OutSignals::segment`). -/
def OutSignals.ofSegment (s : Segment) : OutSignals := ⟨false, some s⟩

/-- Internal return determining how a received ack is handled (`AckUpdate`). -/
inductive AckUpdate where
  | TooLow
  | Duplicate
  | Updated (new_bytes : Nat)
  | Unsent
deriving DecidableEq

/-- Tcp repr without the connection meta data (`InnerRepr`). -/
structure InnerRepr where
  flags : tcp.Flags
  seq_number : tcp.SeqNumber
  ack_number : Option tcp.SeqNumber
  window_len : Nat
  window_scale : Option Nat
  max_seg_size : Option Nat
  sack_permitted : Bool
  sack_ranges : List (Option (Nat × Nat))
  payload_len : Nat
deriving DecidableEq

/-- `InnerRepr::send_impl`. -/
def InnerRepr.send_impl (r : InnerRepr) (src dst : Nat) : tcp.Repr :=
  { src_port := src
    dst_port := dst
    seq_number := r.seq_number
    flags := r.flags
    ack_number := r.ack_number
    window_len := r.window_len
    window_scale := r.window_scale
    max_seg_size := r.max_seg_size
    sack_permitted := r.sack_permitted
    sack_ranges := r.sack_ranges
    payload_len := r.payload_len }

/-- `InnerRepr::send_back`: answer along the incoming segment, ports swapped. -/
def InnerRepr.send_back (r : InnerRepr) (incoming : tcp.Repr) : tcp.Repr :=
  r.send_impl incoming.dst_port incoming.src_port

/-- `InnerRepr::send_to`: send along a four-tuple. -/
def InnerRepr.send_to (r : InnerRepr) (tuple : FourTuple) : tcp.Repr :=
  r.send_impl tuple.local_port tuple.remote_port

/-- The error kind returned by `Connection::open` (`layer::Error::Illegal`);
the other layer error variants are never produced by the connection machine. -/
inductive LayerError where
  | Illegal
deriving DecidableEq

/-- `ReceivedSegment::sequence_len`: data plus SYN and FIN sequence space. -/
def ReceivedSegment.sequence_len (r : ReceivedSegment) : Nat :=
  r.data_len + (if r.syn then 1 else 0) + (if r.fin then 1 else 0)

/-- `ReceivedSegment::sequence_end`: past-the-end ACK number of the segment. -/
def ReceivedSegment.sequence_end (r : ReceivedSegment) : tcp.SeqNumber :=
  seqAdd r.begin_seq r.sequence_len

/-- `Receive::in_window`. -/
def Receive.in_window (r : Receive) (seq : tcp.SeqNumber) : Bool :=
  containsInWindow r.next seq r.window

/-- `Send::incoming_ack`: classify an incoming ack, advancing `unacked` on a
genuine update.  Returns the classification and the updated `Send`. -/
def Send.incoming_ack (s : Send) (seq : tcp.SeqNumber) : AckUpdate × Send :=
  if seqLtb seq s.unacked then (.TooLow, s)
  else if seq == s.unacked then (.Duplicate, s)
  else if seqLeb seq s.next then
    (.Updated (seqSub seq s.unacked), { s with unacked := seq })
  else (.Unsent, s)

/-- `Send::window()`: the actual byte window, `window << window_scale`;
named `window_bytes` because `window` is the field projection in Lean. -/
def Send.window_bytes (s : Send) : Nat := s.window * 2 ^ s.window_scale

/-- `Send::in_flight()`: bytes in flight.  The Rust function asserts
`unacked <= next`; an assertion failure is modelled as `none`. -/
def Send.in_flight (s : Send) : Option Nat :=
  if seqLeb s.unacked s.next then some (seqSub s.next s.unacked) else none

namespace Connection

/-- `Connection::zeroed()`. -/
def zeroed : Connection :=
  { current := .Closed
    previous := .Closed
    flow_control := { ssthresh := 0, congestion_window := 0, recover := 0 }
    receive_window := 0
    sender_maximum_segment_size := 0
    receiver_maximum_segment_size := 0
    last_ack_receive_offset := 0
    ack_timer := .never
    ack_timeout := 0
    retransmission_timer := 0
    retransmission_timeout := 0
    restart_timeout := 0
    selective_acknowledgements := false
    duplicate_ack := 0
    send := { unacked := 0, next := 0, last_time := 0, unsent := 0,
              window := 0, window_scale := 0, initial_seq := 0 }
    recv := { next := 0, acked := 0, last_time := 0,
              window := 0, window_scale := 0, initial_seq := 0 } }

/-- `Connection::change_state`. -/
def change_state (c : Connection) (new : State) : Connection :=
  { c with previous := c.current, current := new }

/-- `Connection::ack_all`: catch the public ack counter up and disarm the
delayed-ack timer; returns the updated connection and `recv.next`. -/
def ack_all (c : Connection) : Connection × tcp.SeqNumber :=
  ({ c with recv.acked := c.recv.next, ack_timer := .never }, c.recv.next)

/-- `Connection::should_ack`. -/
def should_ack (c : Connection) : Bool := seqLtb c.recv.acked c.recv.next

/-- `Connection::rearm_ack_timer`. -/
def rearm_ack_timer (c : Connection) (time : Int) : Connection :=
  { c with ack_timer := match c.ack_timer with
      | .when _ => .when (time + c.ack_timeout)
      | .never => .never }

/-- `Connection::rearm_retransmission_timer`. -/
def rearm_retransmission_timer (c : Connection) (time : Int) : Connection :=
  { c with retransmission_timer := time + c.retransmission_timeout }

/-- `Connection::restart_window`: RFC5681 restart window (note: the source
caps by the unscaled `send.window`). -/
def restart_window (c : Connection) : Nat :=
  min c.flow_control.congestion_window c.send.window

/-- `Connection::repr_ack_all`: a bare segment acking everything received. -/
def repr_ack_all (c : Connection) (remote : FourTuple) : Connection × tcp.Repr :=
  let (c, ackno) := c.ack_all
  (c, (InnerRepr.mk tcp.Flags.default c.send.next (some ackno) c.recv.window
        none none false [none, none, none] 0).send_to remote)

/-- `Connection::segment_ack_all`. -/
def segment_ack_all (c : Connection) (remote : FourTuple) : Connection × Segment :=
  let (c, repr) := c.repr_ack_all remote
  (c, { repr := repr, range := (0, 0) })

/-- `Connection::signal_ack_all`. -/
def signal_ack_all (c : Connection) (remote : FourTuple) : Connection × Signals :=
  let (c, repr) := c.repr_ack_all remote
  (c, { Signals.default with answer := some repr })

/-- `Connection::send_open`: a SYN, optionally acking received segments. -/
def send_open (c : Connection) (ack : Bool) (dest : FourTuple) : Connection × tcp.Repr :=
  let (c, ackno) :=
    if ack then (fun p => (p.1, some p.2)) c.ack_all else (c, none)
  (c, (InnerRepr.mk tcp.Flags.SYN c.send.initial_seq ackno 0
        (some c.send.window_scale) none false [none, none, none] 0).send_to dest)

/-- `Connection::remote_reset_connection`. -/
def remote_reset_connection (c : Connection) : Connection × Signals :=
  (c.change_state .Closed, { Signals.default with reset := true, delete := true })

/-- `Connection::signal_reset_connection`: proactively reset on an invalid
in-window packet. -/
def signal_reset_connection (c : Connection) (entry : EntryKey) : Connection × Signals :=
  let c := c.change_state .Closed
  let seqno := c.send.next
  let (c, ackno) := c.ack_all
  (c, { Signals.default with
          reset := true, delete := true,
          answer := some ((InnerRepr.mk tcp.Flags.RST seqno (some ackno) 0
            none none false [none, none, none] 0).send_to entry.four_tuple) })

/-- `Connection::ingress_acceptable` (RFC 793 p.40 acceptability test). -/
def ingress_acceptable (c : Connection) (repr : tcp.Repr) : Bool :=
  match repr.payload_len, c.recv.window with
  | 0, 0 => repr.seq_number == c.recv.next
  | 0, _ + 1 => c.recv.in_window repr.seq_number
  | _ + 1, 0 => false
  | _ + 1, _ + 1 =>
      c.recv.in_window repr.seq_number ||
      c.recv.in_window (seqSub (seqAdd repr.seq_number repr.payload_len) 1)

/-- `Connection::window_update` (TCP Reno, RFC 5681). -/
def window_update (c : Connection) (_segment : tcp.Repr) (new_bytes : Nat) : Connection :=
  if c.duplicate_ack > 0 then
    { c with flow_control.congestion_window := c.flow_control.ssthresh }
  else if c.flow_control.congestion_window ≤ c.flow_control.ssthresh then
    { c with flow_control.congestion_window :=
        u32satMul2 c.flow_control.congestion_window }
  else
    let update := min c.sender_maximum_segment_size new_bytes
    { c with flow_control.congestion_window := u32satAdd c.flow_control.congestion_window update }

/-- The close-handshake transition table of `Connection::set_recv_ack`,
dispatching on `(current, meta.fin, acked_all)` where
`acked_all := send.next == send.unacked`. -/
def recv_ack_transition (c : Connection) (meta : ReceivedSegment) : Connection :=
  match c.current, meta.fin, c.send.next == c.send.unacked with
  | .Established, true, _ | .SynReceived, true, _ => c.change_state .CloseWait
  | .FinWait, true, true | .Closing, _, true =>
      { c.change_state .TimeWait with
          retransmission_timer := meta.timestamp + 2 * c.retransmission_timeout }
  | .FinWait, true, false => c.change_state .Closing
  | _, _, _ => c

/-- `Connection::set_recv_ack`: commit a received segment to the ack state —
run the close-handshake transition, then advance `recv.next` to the segment
end and bound the delayed-ACK timer. -/
def set_recv_ack (c : Connection) (meta : ReceivedSegment) : Connection :=
  let c1 := c.recv_ack_transition meta
  { c1 with recv.next := meta.sequence_end,
            ack_timer := c1.ack_timer.min (.when (meta.timestamp + c1.ack_timeout)) }

/-- `Connection::open`: drive a `Closed`/`Listen` connection to `SynSent`.
Mirrors the Rust `&mut self` + `Result<(), Error>` signature as a pair: on
error the connection is returned unchanged alongside `some Illegal`. -/
def openConn (c : Connection) (time : Int) (entry : EntryKey) :
    Connection × Option LayerError :=
  match c.current with
  | .Closed | .Listen =>
      let c := c.change_state .SynSent
      let iss := entry.initial_seq_num time
      ({ c with send.initial_seq := iss, send.unacked := iss,
                send.next := seqAdd iss 1,
                retransmission_timer := time }, none)
  | _ => (c, some .Illegal)

/-- `Connection::arrives_closed`: answer segments on a closed socket with a
reset, except when the segment itself carries RST. -/
def arrives_closed (c : Connection) (incoming : InPacket) : Signals :=
  let segment := incoming.segment
  if segment.flags.rst then Signals.default
  else
    match segment.ack_number with
    | some ack_number =>
        { Signals.default with
            answer := some ((InnerRepr.mk tcp.Flags.RST ack_number none 0
              none none false [none, none, none] 0).send_back segment) }
    | none =>
        { Signals.default with
            answer := some ((InnerRepr.mk tcp.Flags.RST 0
              (some (seqAdd segment.seq_number segment.sequence_len)) 0
              none none false [none, none, none] 0).send_back segment) }

/-- `Connection::arrives_listen`: handle an incoming packet in Listen state. -/
def arrives_listen (c : Connection) (incoming : InPacket) (entry : EntryKey) :
    Connection × EntryKey × Signals :=
  let segment := incoming.segment
  if segment.flags.rst then (c, entry, Signals.default)
  else
    match segment.ack_number with
    | some ack_number =>
        (c, entry, { Signals.default with
            answer := some ((InnerRepr.mk tcp.Flags.RST ack_number none 0
              none none false [none, none, none] 0).send_back segment) })
    | none =>
      if !segment.flags.syn then (c, entry, Signals.default)
      else
        let new_four := { entry.four_tuple with remote := incoming.fromAddr }
        let entry := entry.set_four_tuple new_four
        let c := { c with recv.next := seqAdd segment.seq_number 1,
                          recv.initial_seq := segment.seq_number }
        let isn := entry.initial_seq_num incoming.time
        let c := { c with send.next := seqAdd isn 1, send.unacked := isn,
                          send.initial_seq := isn }
        let (c, ackno) := c.ack_all
        (c, entry, { Signals.default with
            answer := some ((InnerRepr.mk tcp.Flags.RST isn (some ackno)
              c.recv.window none none false [none, none, none] 0).send_to new_four) })

/-- The part of `Connection::arrives_syn_sent` after the ack-validity check. -/
def syn_sent_rest (c : Connection) (segment : tcp.Repr) (time : Int)
    (entry : EntryKey) : Connection × EntryKey × Signals :=
  if segment.flags.rst then
    if segment.ack_number.isNone then (c, entry, Signals.default)
    else
      let (c, s) := c.remote_reset_connection
      (c, entry, s)
  else if !segment.flags.syn then (c, entry, Signals.default)
  else
    let c := { c with recv.initial_seq := segment.seq_number,
                      recv.next := seqAdd segment.seq_number 1,
                      send.window := segment.window_len,
                      send.window_scale := segment.window_scale.getD 0 }
    let smss := max (segment.max_seg_size.getD 536) 536
    let c := { c with sender_maximum_segment_size := smss,
                      receiver_maximum_segment_size := smss }
    let c :=
      match segment.ack_number with
      | some ack => { c with send.unacked := ack }
      | none => c
    if c.send.unacked == c.send.initial_seq then
      let c := c.change_state .SynReceived
      let (c, repr) := c.send_open true entry.four_tuple
      (c, entry, { Signals.default with answer := some repr })
    else
      let c := c.change_state .Established
      let c := { c with ack_timer := .when time }
      (c, entry, Signals.default)

/-- `Connection::arrives_syn_sent`. -/
def arrives_syn_sent (c : Connection) (incoming : InPacket) (entry : EntryKey) :
    Connection × EntryKey × Signals :=
  let segment := incoming.segment
  match segment.ack_number with
  | some ack =>
    if seqLeb ack c.send.initial_seq || seqLtb c.send.next ack then
      if segment.flags.rst then (c, entry, Signals.default)
      else
        (c, entry, { Signals.default with
            answer := some ((InnerRepr.mk tcp.Flags.RST ack
              (some segment.seq_number) 0 none none false
              [none, none, none] 0).send_back segment) })
    else c.syn_sent_rest segment incoming.time entry
  | none => c.syn_sent_rest segment incoming.time entry

/-- `Connection::arrives_established` (also used in `FinWait`). -/
def arrives_established (c : Connection) (incoming : InPacket) (entry : EntryKey) :
    Connection × EntryKey × Signals :=
  let segment := incoming.segment
  let time := incoming.time
  if !c.ingress_acceptable segment then
    if segment.flags.rst then
      let (c, s) := c.remote_reset_connection
      (c, entry, s)
    else
      let (c, s) := c.signal_ack_all entry.four_tuple
      (c, entry, s)
  else if segment.flags.syn then
    let (c, s) := c.signal_reset_connection entry
    (c, entry, s)
  else
    match segment.ack_number with
    | none => (c, entry, Signals.default)
    | some ack =>
      let (upd, send) := c.send.incoming_ack ack
      let c := { c with send := send }
      let cont : Connection → Connection × EntryKey × Signals := fun c =>
        let segment_ack : ReceivedSegment :=
          { syn := segment.flags.syn, fin := segment.flags.fin,
            data_len := segment.payload_len, begin_seq := segment.seq_number,
            timestamp := time }
        if segment_ack.data_len == 0 then
          (c.set_recv_ack segment_ack, entry, Signals.default)
        else
          (c, entry, { Signals.default with receive := some segment_ack })
      match upd with
      | .Unsent =>
          let (c, s) := c.signal_ack_all entry.four_tuple
          (c, entry, s)
      | .Duplicate => cont { c with duplicate_ack := min (c.duplicate_ack + 1) 255 }
      | .TooLow => cont c
      | .Updated new_bytes =>
          let c :=
            if c.duplicate_ack > 0 then
              { c with flow_control.congestion_window := c.flow_control.ssthresh,
                       duplicate_ack := 0 }
            else c
          let c := { c with send.window := segment.window_len }
          cont (c.window_update segment new_bytes)

/-- `Connection::arrives`: dispatch on the current state.  The wildcard arm of
the source is `unimplemented!()` — an unconditional abort — modelled as
`none`. -/
def arrives (c : Connection) (incoming : InPacket) (entry : EntryKey) :
    Option (Connection × EntryKey × Signals) :=
  match c.current with
  | .Closed => some (c, entry, c.arrives_closed incoming)
  | .Listen => some (c.arrives_listen incoming entry)
  | .SynSent => some (c.arrives_syn_sent incoming entry)
  | .Established | .FinWait => some (c.arrives_established incoming entry)
  | _ => none

/-- `Connection::segment_retransmit` (shared by fast and timeout retransmit).
The `in_flight` assertion failure is modelled as `none`. -/
def segment_retransmit (c : Connection) (available : AvailableBytes)
    (tuple : FourTuple) : Option (Connection × Option Segment) :=
  match c.send.in_flight with
  | none => none
  | some in_flight =>
    let byte_window := min available.total u32max
    if in_flight == 0 then some (c, none)
    else
      let to_send :=
        min (min c.send.window_bytes c.sender_maximum_segment_size) byte_window
      if to_send == 0 then some (c, none)
      else
        let is_fin := available.fin && to_send == available.total
        let (c, repr) := c.repr_ack_all tuple
        let repr := { repr with flags.fin := is_fin,
                                seq_number := c.send.unacked,
                                payload_len := to_send % 65536 }
        some (c, some { repr := repr, range := (0, to_send) })

/-- `Connection::fast_retransmit`. -/
def fast_retransmit (c : Connection) (available : AvailableBytes) (_time : Int)
    (entry : EntryKey) : Option (Connection × Option Segment) :=
  c.segment_retransmit available entry.four_tuple

/-- `Connection::timeout_retransmit`. -/
def timeout_retransmit (c : Connection) (available : AvailableBytes) (time : Int)
    (entry : EntryKey) : Option (Connection × Option Segment) :=
  (c.rearm_retransmission_timer time).segment_retransmit available entry.four_tuple

/-- The part of `Connection::select_send_segment` after the idle-restart
window adjustment: retransmissions, new data, or a bare ACK. -/
def select_send_body (c : Connection) (available : AvailableBytes)
    (time : Int) (entry : EntryKey) : Option (Connection × Option Segment) :=
  let byte_window := min available.total u32max
  if c.duplicate_ack ≥ 2 then c.fast_retransmit available time entry
  else if c.retransmission_timer < time then
    c.timeout_retransmit available time entry
  else
    let window := c.send.window_bytes
    match c.send.in_flight with
    | none => none
    | some sent =>
      let max_sent := min window byte_window
      if sent < max_sent then
        let seqEnd := min (u32satAdd sent c.sender_maximum_segment_size) max_sent
        if seqEnd - sent == 0 then none
        else
          let is_fin := available.fin && seqEnd == available.total
          let c :=
            if is_fin then
              match c.current with
              | .Established => c.change_state .FinWait
              | .CloseWait => c.change_state .LastAck
              | _ => c
            else c
          let (c, repr) := c.repr_ack_all entry.four_tuple
          let repr := { repr with payload_len := (seqEnd - sent) % 65536 }
          let repr := if is_fin then { repr with flags := tcp.Flags.FIN } else repr
          let adv := (seqEnd - sent) + (if is_fin then 1 else 0)
          let c := { c with send.next := seqAdd c.send.next adv }
          some (c, some { repr := repr, range := (sent, seqEnd) })
      else if c.should_ack || Expiration.leb c.ack_timer (.when time) then
        let c := c.rearm_ack_timer time
        let (c, seg) := c.segment_ack_all entry.four_tuple
        some (c, some seg)
      else some (c, none)

/-- The idle-restart step opening `Connection::select_send_segment`: after an
idle period the congestion window is reset per RFC 5681 §4.1. -/
def restart_idle (c : Connection) (time : Int) : Connection :=
  let last_time := max c.recv.last_time c.send.last_time
  if time > last_time + c.restart_timeout then
    { c with flow_control.congestion_window := c.restart_window }
  else c

/-- `Connection::select_send_segment`: the main egress selector for the
`Established`/`CloseWait` (and FIN-capped closing) states.  Aborts — the
`assert!(range.len() > 0)` and the `in_flight` assertion — are `none`. -/
def select_send_segment (c : Connection) (available : AvailableBytes)
    (time : Int) (entry : EntryKey) : Option (Connection × Option Segment) :=
  (c.restart_idle time).select_send_body available time entry

/-- `Connection::select_syn_retransmit`; the `unreachable!` arm is `none`. -/
def select_syn_retransmit (c : Connection) (time : Int) (entry : EntryKey) :
    Option (Connection × Option Segment) :=
  if c.retransmission_timer > time then some (c, none)
  else
    match c.current with
    | .SynReceived | .SynSent =>
        let ack := c.current = .SynReceived
        let c := c.rearm_retransmission_timer time
        let (c, repr) := c.send_open (decide ack) entry.four_tuple
        some (c, some { repr := repr, range := (0, 0) })
    | _ => none

/-- `Connection::ensure_closed_ack`. -/
def ensure_closed_ack (c : Connection) (tuple : FourTuple) :
    Connection × Option Segment :=
  if c.recv.acked == c.recv.next then (c, none)
  else
    let (c, seg) := c.segment_ack_all tuple
    (c, some seg)

/-- `Connection::ensure_time_wait`. -/
def ensure_time_wait (c : Connection) (time : Int) (entry : EntryKey) :
    Connection × OutSignals :=
  match c.ensure_closed_ack entry.four_tuple with
  | (c, some segment) => (c, { delete := false, segment := some segment })
  | (c, none) =>
      (c, { delete := decide (time ≥ c.retransmission_timer), segment := none })

/-- `Connection::next_send_segment`: choose the next segment to transmit.
Aborts inside the selectors are propagated as `none`. -/
def next_send_segment (c : Connection) (available : AvailableBytes) (time : Int)
    (entry : EntryKey) : Option (Connection × OutSignals) :=
  match c.current with
  | .Established | .CloseWait =>
      (c.select_send_segment available time entry).map fun r =>
        match r with
        | (c, some s) => (c, OutSignals.ofSegment s)
        | (c, none) => (c, OutSignals.none)
  | .FinWait | .Closing | .LastAck =>
      let available := { available with
          total := min available.total (seqSub c.send.next c.send.unacked) }
      (c.select_send_segment available time entry).map fun r =>
        match r with
        | (c, some s) => (c, OutSignals.ofSegment s)
        | (c, none) => (c, OutSignals.none)
  | .Closed =>
      match c.ensure_closed_ack entry.four_tuple with
      | (c, some s) => some (c, OutSignals.ofSegment s)
      | (c, none) => some (c, OutSignals.none)
  | .TimeWait => some (c.ensure_time_wait time entry)
  | .SynSent | .SynReceived =>
      (c.select_syn_retransmit time entry).map fun r =>
        match r with
        | (c, some s) => (c, OutSignals.ofSegment s)
        | (c, none) => (c, OutSignals.none)
  | .Listen => some (c, OutSignals.none)

end Connection

/-! ## Reachability

One step of the connection machine between two handler calls: a successful
`open`, an `arrives` on a well-formed wire segment that did not abort, a
`set_recv_ack` commit, or a `next_send_segment` poll that did not abort.
Segments handed to `arrives` are well-formed because the wire parsing layer
delivers 32/16-bit fields and a window scale of at most 14 (spec §3). -/
inductive Step : Connection → Connection → Prop
  | openStep (c c' : Connection) (t : Int) (e : EntryKey) :
      c.openConn t e = (c', none) → Step c c'
  | arrivesStep (c c' : Connection) (p : InPacket) (e e' : EntryKey) (s : Signals) :
      p.segment.Wf → c.arrives p e = some (c', e', s) → Step c c'
  | recvAckStep (c : Connection) (m : ReceivedSegment) :
      Step c (c.set_recv_ack m)
  | sendStep (c c' : Connection) (a : AvailableBytes) (t : Int) (e : EntryKey)
      (o : OutSignals) : c.next_send_segment a t e = some (c', o) → Step c c'

/-- A connection state reachable from the zeroed connection by handler calls. -/
def Reachable (c : Connection) : Prop :=
  Relation.ReflTransGen Step Connection.zeroed c

/-- The inductive invariant on the sending half: both sequence cursors are
32-bit values with `unacked ≤ next` in windowed ordering, and the advertised
window and its scale fit their negotiated bounds. -/
def SendInv (s : Send) : Prop :=
  s.unacked < seqMod ∧ s.next < seqMod ∧ seqSub s.next s.unacked < seqHalf ∧
  s.window < 65536 ∧ s.window_scale ≤ 14

/-- The inductive invariant of the connection machine: the send-half bounds,
the delayed-ACK-timer direction `ack_timer = Never → recv.acked = recv.next`,
and the shape of the send cursors while a SYN is in flight. -/
def Inv (c : Connection) : Prop :=
  SendInv c.send ∧
  (c.ack_timer = .never → c.recv.acked = c.recv.next) ∧
  (c.current = .SynSent → c.send.unacked = c.send.initial_seq ∧
      c.send.next = seqAdd c.send.initial_seq 1 ∧ c.send.initial_seq < seqMod)

/-! ## Concrete fixtures used by the claim theorems -/

/-- A four-tuple for the worked examples. -/
def exTuple : FourTuple := ⟨10, 20, 80, 1234⟩

/-- An entry whose ISN generator always answers 1000. -/
def exIsnEntry : EntryKey := ⟨exTuple, fun _ _ => 1000⟩

/-- An entry whose ISN generator always answers 0. -/
def exZeroEntry : EntryKey := ⟨exTuple, fun _ _ => 0⟩

/-- A plain SYN segment, sequence number 42, no ACK. -/
def exSynPacket : InPacket :=
  { segment :=
      { src_port := 1234, dst_port := 80, seq_number := 42
        flags := ⟨true, false, false⟩, ack_number := none, window_len := 100
        window_scale := none, max_seg_size := none, sack_permitted := false
        sack_ranges := [none, none, none], payload_len := 0 }
    fromAddr := 7, time := 0 }

/-- A listening connection. -/
def exListenConn : Connection := { Connection.zeroed with current := .Listen }

/-- The observed output of the Listen handler on the SYN. -/
def exListenOut : Connection × EntryKey × Signals :=
  (exListenConn.arrives exSynPacket exIsnEntry).getD
    (exListenConn, exIsnEntry, Signals.default)

/-- An `Established` connection in fast recovery: one duplicate ACK seen,
`ssthresh = 8`, `cwnd = 4`, 100 bytes in flight, zero receive window. -/
def exC3Conn : Connection :=
  { Connection.zeroed with
    current := .Established
    duplicate_ack := 1
    flow_control := ⟨8, 4, 0⟩
    send := { unacked := 0, next := 100, last_time := 0, unsent := 0,
              window := 0, window_scale := 0, initial_seq := 0 }
    recv := { next := 5, acked := 5, last_time := 0, window := 0,
              window_scale := 0, initial_seq := 0 } }

/-- A pure ACK of 50, sequence number at `recv.next`, no payload. -/
def exC3Packet : InPacket :=
  { segment :=
      { src_port := 1234, dst_port := 80, seq_number := 5
        flags := ⟨false, false, false⟩, ack_number := some 50, window_len := 0
        window_scale := none, max_seg_size := none, sack_permitted := false
        sack_ranges := [none, none, none], payload_len := 0 }
    fromAddr := 7, time := 0 }

/-- The observed output of `arrives` on the fast-recovery exit. -/
def exC3Out : Connection × EntryKey × Signals :=
  (exC3Conn.arrives exC3Packet exZeroEntry).getD
    (exC3Conn, exZeroEntry, Signals.default)

/-- A connection whose receive window is zero and whose next expected
sequence number is 5. -/
def exC5Conn : Connection :=
  { Connection.zeroed with
    current := .Established
    recv := { next := 5, acked := 5, last_time := 0, window := 0,
              window_scale := 0, initial_seq := 0 } }

/-- A zero-payload segment with sequence number exactly `recv.next`. -/
def exC5Repr : tcp.Repr :=
  { src_port := 1234, dst_port := 80, seq_number := 5
    flags := ⟨false, false, false⟩, ack_number := some 0, window_len := 0
    window_scale := none, max_seg_size := none, sack_permitted := false
    sack_ranges := [none, none, none], payload_len := 0 }

/-- The connection after an active `open` at time 0 with ISS 0. -/
def exSynSentConn : Connection := (Connection.zeroed.openConn 0 exZeroEntry).1

/-- A SYN+ACK answering our SYN, with the peer ISN in the far half of the
sequence space. -/
def exC6Packet : InPacket :=
  { segment :=
      { src_port := 1234, dst_port := 80, seq_number := 2147483648
        flags := ⟨true, false, false⟩, ack_number := some 1, window_len := 1000
        window_scale := none, max_seg_size := none, sack_permitted := false
        sack_ranges := [none, none, none], payload_len := 0 }
    fromAddr := 20, time := 0 }

/-- The established connection reached from the SYN+ACK with peer ISN 2³¹. -/
def exC6Trip : Connection × EntryKey × Signals :=
  (exSynSentConn.arrives exC6Packet exZeroEntry).getD
    (exSynSentConn, exZeroEntry, Signals.default)

/-- A SYN+ACK whose peer ISN is the top of the sequence space, so that
`recv.next` wraps to 0. -/
def exC7Packet : InPacket :=
  { segment :=
      { src_port := 1234, dst_port := 80, seq_number := 4294967295
        flags := ⟨true, false, false⟩, ack_number := some 1, window_len := 1000
        window_scale := none, max_seg_size := none, sack_permitted := false
        sack_ranges := [none, none, none], payload_len := 0 }
    fromAddr := 20, time := 0 }

/-- The established connection reached from the wrapping SYN+ACK. -/
def exC7Trip : Connection × EntryKey × Signals :=
  (exSynSentConn.arrives exC7Packet exZeroEntry).getD
    (exSynSentConn, exZeroEntry, Signals.default)

/-- The spec's scenario 2 input: `{flags: ACK, ack = 100, seq = 50}`. -/
def exC8Packet : InPacket :=
  { segment :=
      { src_port := 1234, dst_port := 80, seq_number := 50
        flags := ⟨false, false, false⟩, ack_number := some 100, window_len := 0
        window_scale := none, max_seg_size := none, sack_permitted := false
        sack_ranges := [none, none, none], payload_len := 0 }
    fromAddr := 7, time := 0 }

/-- A connection poised to send new data: `Established`, empty flight,
10-byte window, negotiated MSS 536, timer at 5 with the poll at time 3. -/
def exC10Conn : Connection :=
  { Connection.zeroed with
    current := .Established
    sender_maximum_segment_size := 536
    retransmission_timer := 5
    send := { unacked := 0, next := 0, last_time := 0, unsent := 0,
              window := 10, window_scale := 0, initial_seq := 0 } }

/-! ## Arithmetic helper lemmas -/

theorem seqAdd_lt_mod (a b : Nat) : seqAdd a b < seqMod := by
  unfold seqAdd seqMod; omega

theorem seqSub_lt_mod (a b : Nat) : seqSub a b < seqMod := by
  unfold seqSub seqMod; omega

theorem seqSub_self (a : Nat) : seqSub a a = 0 := by
  unfold seqSub seqMod; omega

theorem seqSub_succ_self (a : Nat) (h : a < seqMod) : seqSub (seqAdd a 1) a = 1 := by
  unfold seqSub seqAdd seqMod at *; omega

theorem seqSub_seqAdd_left (n u k : Nat) (hn : n < seqMod) (hu : u < seqMod) :
    seqSub (seqAdd n k) u = (seqSub n u + k) % seqMod := by
  unfold seqSub seqAdd seqMod at *
  omega

/-- The `SynSent` ack-window check `¬(ack ≤ ISS) ∧ ¬(ISS+1 < ack)` pins the
acknowledgment to exactly `ISS + 1`. -/
theorem syn_sent_ack_eq (i a : Nat) (hi : i < seqMod) (ha : a < seqMod)
    (h1 : seqLeb a i = false) (h2 : seqLtb (seqAdd i 1) a = false) :
    a = seqAdd i 1 := by
  unfold seqLeb seqLtb seqSub seqAdd seqMod seqHalf at *
  simp only [Bool.and_eq_false_iff, decide_eq_false_iff_not, not_lt] at h1 h2
  omega

theorem seqAdd_one_ne (i : Nat) (hi : i < seqMod) : seqAdd i 1 ≠ i := by
  unfold seqAdd seqMod at *; omega

theorem seqLtb_irrefl (a : Nat) : seqLtb a a = false := by
  unfold seqLtb seqSub seqMod seqHalf; simp

theorem exp_min_when_ne_never (x : Expiration) (t : Int) :
    Expiration.min x (.when t) ≠ .never := by
  cases x <;> simp [Expiration.min]

theorem initial_seq_num_lt (e : EntryKey) (t : Int) :
    e.initial_seq_num t < seqMod :=
  Nat.mod_lt _ (by norm_num [seqMod])

/-! ## Invariant preservation -/

theorem inv_zeroed : Inv Connection.zeroed := by
  refine ⟨⟨?_, ?_, ?_, ?_, ?_⟩, ?_, ?_⟩ <;>
    simp [Connection.zeroed, seqSub, seqMod, seqHalf]

theorem inv_change_state (c : Connection) (s : State) (hInv : Inv c)
    (hs : s ≠ .SynSent) : Inv (c.change_state s) := by
  obtain ⟨h1, h2, h3⟩ := hInv
  exact ⟨h1, h2, fun h => absurd h hs⟩

theorem inv_ack_all (c : Connection) (hInv : Inv c) : Inv c.ack_all.1 := by
  obtain ⟨h1, h2, h3⟩ := hInv
  exact ⟨h1, fun _ => rfl, h3⟩

theorem inv_repr_ack_all (c : Connection) (r : FourTuple) (hInv : Inv c) :
    Inv (c.repr_ack_all r).1 :=
  inv_ack_all c hInv

theorem inv_segment_ack_all (c : Connection) (r : FourTuple) (hInv : Inv c) :
    Inv (c.segment_ack_all r).1 :=
  inv_ack_all c hInv

theorem inv_signal_ack_all (c : Connection) (r : FourTuple) (hInv : Inv c) :
    Inv (c.signal_ack_all r).1 :=
  inv_ack_all c hInv

theorem inv_send_open (c : Connection) (b : Bool) (dest : FourTuple)
    (hInv : Inv c) : Inv (c.send_open b dest).1 := by
  cases b
  · exact hInv
  · exact inv_ack_all c hInv

theorem inv_remote_reset (c : Connection) (hInv : Inv c) :
    Inv c.remote_reset_connection.1 :=
  inv_change_state c .Closed hInv (by decide)

theorem inv_signal_reset (c : Connection) (e : EntryKey) (hInv : Inv c) :
    Inv (c.signal_reset_connection e).1 :=
  inv_ack_all _ (inv_change_state c .Closed hInv (by decide))

theorem inv_window_update (c : Connection) (seg : tcp.Repr) (nb : Nat)
    (hInv : Inv c) : Inv (c.window_update seg nb) := by
  obtain ⟨h1, h2, h3⟩ := hInv
  unfold Connection.window_update
  split
  · exact ⟨h1, h2, h3⟩
  · split
    · exact ⟨h1, h2, h3⟩
    · exact ⟨h1, h2, h3⟩

theorem inv_rearm_ack_timer (c : Connection) (t : Int) (hInv : Inv c) :
    Inv (c.rearm_ack_timer t) := by
  obtain ⟨h1, h2, h3⟩ := hInv
  refine ⟨h1, ?_, h3⟩
  unfold Connection.rearm_ack_timer
  cases hx : c.ack_timer <;> simp [hx]
  exact h2 hx

theorem inv_rearm_retransmission_timer (c : Connection) (t : Int) (hInv : Inv c) :
    Inv (c.rearm_retransmission_timer t) := by
  obtain ⟨h1, h2, h3⟩ := hInv
  exact ⟨h1, h2, h3⟩

theorem recv_ack_transition_send (c : Connection) (m : ReceivedSegment) :
    (c.recv_ack_transition m).send = c.send := by
  unfold Connection.recv_ack_transition Connection.change_state
  cases c.current <;> cases m.fin <;> cases c.send.next == c.send.unacked <;> rfl

theorem recv_ack_transition_cases (c : Connection) (m : ReceivedSegment) :
    c.recv_ack_transition m = c ∨ (c.recv_ack_transition m).current ≠ .SynSent := by
  unfold Connection.recv_ack_transition Connection.change_state
  cases c.current <;> cases m.fin <;> cases c.send.next == c.send.unacked <;> simp

theorem inv_set_recv_ack (c : Connection) (m : ReceivedSegment) (hInv : Inv c) :
    Inv (c.set_recv_ack m) := by
  obtain ⟨h1, h2, h3⟩ := hInv
  refine ⟨?_, ?_, ?_⟩
  · show SendInv ((c.recv_ack_transition m).send)
    rw [recv_ack_transition_send]
    exact h1
  · intro h
    exact absurd h (exp_min_when_ne_never _ _)
  · rcases recv_ack_transition_cases c m with heq | hne
    · intro h
      have hc : c.current = .SynSent := by
        have h' : (c.recv_ack_transition m).current = .SynSent := h
        rwa [heq] at h'
      have hsend : (c.recv_ack_transition m).send = c.send :=
        recv_ack_transition_send c m
      show (c.recv_ack_transition m).send.unacked
            = (c.recv_ack_transition m).send.initial_seq ∧
          (c.recv_ack_transition m).send.next
            = seqAdd (c.recv_ack_transition m).send.initial_seq 1 ∧
          (c.recv_ack_transition m).send.initial_seq < seqMod
      rw [hsend]
      exact h3 hc
    · intro h
      exact absurd h hne

theorem one_lt_seqHalf : 1 < seqHalf := by norm_num [seqHalf]

theorem seqSub_diff_one (i : Nat) (hi : i < seqMod) :
    seqSub (seqAdd i 1) i < seqHalf := by
  rw [seqSub_succ_self i hi]
  exact one_lt_seqHalf

theorem inv_openConn (c c' : Connection) (t : Int) (e : EntryKey)
    (err : Option LayerError) (hInv : Inv c) (h : c.openConn t e = (c', err)) :
    Inv c' := by
  obtain ⟨⟨hb1, hb2, hb3, hb4, hb5⟩, h2, h3⟩ := hInv
  unfold Connection.openConn at h
  split at h <;> injection h with h h' <;> subst h <;>
    first
      | exact ⟨⟨hb1, hb2, hb3, hb4, hb5⟩, h2, h3⟩
      | exact ⟨⟨initial_seq_num_lt e t, seqAdd_lt_mod _ _,
          seqSub_diff_one _ (initial_seq_num_lt e t), hb4, hb5⟩, h2,
          fun _ => ⟨rfl, rfl, initial_seq_num_lt e t⟩⟩

theorem inv_arrives_listen (c : Connection) (p : InPacket) (e : EntryKey)
    (hInv : Inv c) : Inv (c.arrives_listen p e).1 := by
  obtain ⟨⟨hb1, hb2, hb3, hb4, hb5⟩, h2, h3⟩ := hInv
  simp only [Connection.arrives_listen]
  split
  · exact ⟨⟨hb1, hb2, hb3, hb4, hb5⟩, h2, h3⟩
  · split
    · exact ⟨⟨hb1, hb2, hb3, hb4, hb5⟩, h2, h3⟩
    · split
      · exact ⟨⟨hb1, hb2, hb3, hb4, hb5⟩, h2, h3⟩
      · refine ⟨⟨initial_seq_num_lt _ _, seqAdd_lt_mod _ _,
            seqSub_diff_one _ (initial_seq_num_lt _ _), hb4, hb5⟩,
            fun _ => rfl, ?_⟩
        intro _
        exact ⟨rfl, rfl, initial_seq_num_lt _ _⟩

theorem getD_scale_le (o : Option Nat) (h : ∀ w, o = some w → w ≤ 14) :
    o.getD 0 ≤ 14 := by
  cases o
  · simp
  · simpa using h _ rfl

theorem zero_lt_seqHalf : 0 < seqHalf := by norm_num [seqHalf]

theorem inv_syn_sent_rest (c : Connection) (seg : tcp.Repr) (t : Int)
    (e : EntryKey) (hInv : Inv c) (hcur : c.current = .SynSent) (hWf : seg.Wf)
    (hAck : ∀ a, seg.ack_number = some a → a = seqAdd c.send.initial_seq 1) :
    Inv (c.syn_sent_rest seg t e).1 := by
  obtain ⟨hu, hn, hiss⟩ := hInv.2.2 hcur
  obtain ⟨hw1, hw2, hw3, hw4, hw5, hw6⟩ := hWf
  have hb1 := hInv.1.1
  have hb2 := hInv.1.2.1
  simp only [Connection.syn_sent_rest]
  split
  · split
    · exact hInv
    · exact inv_remote_reset c hInv
  · rename_i hrst
    split
    · exact hInv
    · -- the accepted-SYN path
      rename_i hsyn
      rcases hseg : seg.ack_number with _ | a
      · split
        case _ hbeq =>
          -- stay with our SYN: transition to SynReceived and answer SYN+ACK
          refine ⟨⟨hb1, hb2, hInv.1.2.2.1, hw4, getD_scale_le _ hw5⟩,
            fun _ => rfl, ?_⟩
          intro h
          exact absurd h
            (by simp [Connection.send_open, Connection.ack_all, Connection.change_state])
        case _ hbeq =>
          exfalso
          exact hbeq (by simpa using hu)
      · have hEqA : a = seqAdd c.send.initial_seq 1 := hAck a hseg
        have haM : a < seqMod := hw2 a hseg
        split
        case _ hbeq =>
          -- `unacked == initial_seq` cannot hold: unacked was set to ISS+1
          exfalso
          have hae : a = c.send.initial_seq := by
            simpa using hbeq
          exact seqAdd_one_ne _ hiss (hEqA ▸ hae)
        case _ hbeq =>
          -- transition to Established
          refine ⟨⟨haM, hb2, ?_, hw4, getD_scale_le _ hw5⟩, ?_, ?_⟩
          · show seqSub c.send.next a < seqHalf
            rw [hn, hEqA, seqSub_self]
            exact zero_lt_seqHalf
          · intro h
            exact absurd h (by simp)
          · intro h
            exact absurd h (by simp [Connection.change_state])

theorem inv_arrives_syn_sent (c : Connection) (p : InPacket) (e : EntryKey)
    (hInv : Inv c) (hcur : c.current = .SynSent) (hWf : p.segment.Wf) :
    Inv (c.arrives_syn_sent p e).1 := by
  obtain ⟨hu, hn, hiss⟩ := hInv.2.2 hcur
  simp only [Connection.arrives_syn_sent]
  split
  case _ a heq =>
    split
    case _ hbad =>
      split
      · exact hInv
      · exact hInv
    case _ hbad =>
      refine inv_syn_sent_rest c p.segment p.time e hInv hcur hWf ?_
      intro a' heq'
      rw [heq] at heq'
      injection heq' with heq'
      subst heq'
      simp only [Bool.or_eq_true, not_or, Bool.not_eq_true] at hbad
      exact syn_sent_ack_eq _ _ hiss (hWf.2.1 a heq) hbad.1 (hn ▸ hbad.2)
  case _ heq =>
    refine inv_syn_sent_rest c p.segment p.time e hInv hcur hWf ?_
    intro a' heq'
    rw [heq] at heq'
    cases heq'

theorem incoming_ack_send_inv (s : Send) (a : Nat) (hS : SendInv s)
    (ha : a < seqMod) : SendInv (s.incoming_ack a).2 := by
  obtain ⟨h1, h2, h3, h4, h5⟩ := hS
  unfold Send.incoming_ack
  split
  · exact ⟨h1, h2, h3, h4, h5⟩
  · split
    · exact ⟨h1, h2, h3, h4, h5⟩
    · split
      case _ hle =>
        exact ⟨ha, h2, by simpa [seqLeb] using hle, h4, h5⟩
      case _ hle =>
        exact ⟨h1, h2, h3, h4, h5⟩

theorem inv_arrives_established (c : Connection) (p : InPacket) (e : EntryKey)
    (hInv : Inv c) (hnotSyn : c.current ≠ .SynSent) (hWf : p.segment.Wf) :
    Inv (c.arrives_established p e).1 := by
  simp only [Connection.arrives_established]
  split
  · split
    · exact inv_remote_reset c hInv
    · exact inv_signal_ack_all c e.four_tuple hInv
  · split
    · exact inv_signal_reset c e hInv
    · split
      case _ heq => exact hInv
      case _ a heq =>
        have haM : a < seqMod := hWf.2.1 a heq
        have hSend : SendInv (c.send.incoming_ack a).2 :=
          incoming_ack_send_inv c.send a hInv.1 haM
        have hmid : Inv { c with send := (c.send.incoming_ack a).2 } :=
          ⟨hSend, hInv.2.1, fun h => absurd h hnotSyn⟩
        split
        case _ hupd =>
          exact inv_signal_ack_all _ e.four_tuple hmid
        case _ hupd =>
          split
          · exact inv_set_recv_ack _ _
              ⟨hSend, hInv.2.1, fun h => absurd h hnotSyn⟩
          · exact ⟨hSend, hInv.2.1, fun h => absurd h hnotSyn⟩
        case _ hupd =>
          split
          · exact inv_set_recv_ack _ _ hmid
          · exact hmid
        case _ nb hupd =>
          split
          · refine inv_set_recv_ack _ _ ?_
            refine inv_window_update _ p.segment nb ?_
            split
            · exact ⟨⟨hSend.1, hSend.2.1, hSend.2.2.1, hWf.2.2.2.1, hSend.2.2.2.2⟩,
                hInv.2.1, fun h => absurd h hnotSyn⟩
            · exact ⟨⟨hSend.1, hSend.2.1, hSend.2.2.1, hWf.2.2.2.1, hSend.2.2.2.2⟩,
                hInv.2.1, fun h => absurd h hnotSyn⟩
          · refine inv_window_update _ p.segment nb ?_
            split
            · exact ⟨⟨hSend.1, hSend.2.1, hSend.2.2.1, hWf.2.2.2.1, hSend.2.2.2.2⟩,
                hInv.2.1, fun h => absurd h hnotSyn⟩
            · exact ⟨⟨hSend.1, hSend.2.1, hSend.2.2.1, hWf.2.2.2.1, hSend.2.2.2.2⟩,
                hInv.2.1, fun h => absurd h hnotSyn⟩

theorem inv_segment_retransmit (c : Connection) (available : AvailableBytes)
    (tuple : FourTuple) (r : Connection × Option Segment) (hInv : Inv c)
    (h : c.segment_retransmit available tuple = some r) : Inv r.1 := by
  simp only [Connection.segment_retransmit] at h
  split at h
  · cases h
  · split at h
    · injection h with h
      subst h
      exact hInv
    · split at h
      · injection h with h
        subst h
        exact hInv
      · injection h with h
        subst h
        exact inv_repr_ack_all c tuple hInv

theorem inv_fast_retransmit (c : Connection) (available : AvailableBytes)
    (t : Int) (e : EntryKey) (r : Connection × Option Segment) (hInv : Inv c)
    (h : c.fast_retransmit available t e = some r) : Inv r.1 :=
  inv_segment_retransmit c available e.four_tuple r hInv h

theorem inv_timeout_retransmit (c : Connection) (available : AvailableBytes)
    (t : Int) (e : EntryKey) (r : Connection × Option Segment) (hInv : Inv c)
    (h : c.timeout_retransmit available t e = some r) : Inv r.1 :=
  inv_segment_retransmit _ available e.four_tuple r
    (inv_rearm_retransmission_timer c t hInv) h

theorem inv_ensure_closed_ack (c : Connection) (tuple : FourTuple)
    (hInv : Inv c) : Inv (c.ensure_closed_ack tuple).1 := by
  unfold Connection.ensure_closed_ack
  split
  · exact hInv
  · exact inv_segment_ack_all c tuple hInv

theorem inv_ensure_time_wait (c : Connection) (t : Int) (e : EntryKey)
    (hInv : Inv c) : Inv (c.ensure_time_wait t e).1 := by
  unfold Connection.ensure_time_wait
  split
  case _ c2 seg heq =>
    have h2 := inv_ensure_closed_ack c e.four_tuple hInv
    rw [heq] at h2
    exact h2
  case _ c2 heq =>
    have h2 := inv_ensure_closed_ack c e.four_tuple hInv
    rw [heq] at h2
    exact h2

theorem inv_select_syn_retransmit (c : Connection) (t : Int) (e : EntryKey)
    (r : Connection × Option Segment) (hInv : Inv c)
    (h : c.select_syn_retransmit t e = some r) : Inv r.1 := by
  simp only [Connection.select_syn_retransmit] at h
  split at h
  · injection h with h
    subst h
    exact hInv
  · split at h
    · injection h with h
      subst h
      exact inv_send_open _ _ e.four_tuple (inv_rearm_retransmission_timer c t hInv)
    · injection h with h
      subst h
      exact inv_send_open _ _ e.four_tuple (inv_rearm_retransmission_timer c t hInv)
    · cases h

theorem window_bytes_lt (s : Send) (h4 : s.window < 65536)
    (h5 : s.window_scale ≤ 14) : s.window_bytes < 1073741824 := by
  unfold Send.window_bytes
  have hp : (2 : Nat) ^ s.window_scale ≤ 2 ^ 14 :=
    Nat.pow_le_pow_right (by norm_num) h5
  calc s.window * 2 ^ s.window_scale ≤ 65535 * 2 ^ 14 := by
        exact Nat.mul_le_mul (by omega) hp
    _ < 1073741824 := by norm_num

theorem seqHalf_lt_seqMod : seqHalf < seqMod := by norm_num [seqHalf, seqMod]

/-- Advancing `send.next` by at most the send window keeps
`unacked ≤ next` in windowed ordering. -/
theorem new_data_diff (u n adv : Nat) (hu : u < seqMod) (hn : n < seqMod)
    (hbound : seqSub n u + adv < seqHalf) :
    seqSub (seqAdd n adv) u < seqHalf := by
  rw [seqSub_seqAdd_left n u adv hn hu]
  rw [Nat.mod_eq_of_lt (lt_trans hbound seqHalf_lt_seqMod)]
  exact hbound

/-- Emitting one data segment — acking everything and advancing `send.next`
by the segment length — keeps the invariant. -/
theorem inv_after_new_data (c2 : Connection) (tup : FourTuple) (adv : Nat)
    (hInv2 : Inv c2) (hnot2 : c2.current ≠ .SynSent)
    (hadv : seqSub c2.send.next c2.send.unacked + adv < seqHalf) :
    Inv (let c3 := (c2.repr_ack_all tup).1
         { c3 with send := { c3.send with next := seqAdd c3.send.next adv } }) := by
  obtain ⟨⟨hb1, hb2, _hb3, hb4, hb5⟩, _h2, _h3⟩ := hInv2
  refine ⟨⟨hb1, seqAdd_lt_mod _ _, ?_, hb4, hb5⟩, fun _ => rfl,
    fun h => absurd h hnot2⟩
  exact new_data_diff _ _ _ hb1 hb2 hadv

/-- The idle-restart window adjustment only touches the congestion window. -/
theorem inv_restart_window (c : Connection) (hInv : Inv c) :
    Inv { c with flow_control :=
        { c.flow_control with congestion_window := c.restart_window } } :=
  ⟨hInv.1, hInv.2.1, hInv.2.2⟩

theorem inv_select_send_body (c1 : Connection) (available : AvailableBytes)
    (t : Int) (e : EntryKey) (r : Connection × Option Segment) (hInv1 : Inv c1)
    (hnot1 : c1.current ≠ .SynSent)
    (h : c1.select_send_body available t e = some r) : Inv r.1 := by
  simp only [Connection.select_send_body] at h
  split at h
  · exact inv_fast_retransmit c1 available t e r hInv1 h
  · split at h
    · exact inv_timeout_retransmit c1 available t e r hInv1 h
    · split at h
      · cases h
      case _ sent heqF =>
        -- decompose the in-flight computation
        unfold Send.in_flight at heqF
        split at heqF
        case _ hle =>
          injection heqF with heqF
          split at h
          case _ hsm =>
            split at h
            case _ hzero => cases h
            case _ hzero =>
              injection h with h
              subst h
              have hwb : c1.send.window_bytes < 1073741824 :=
                window_bytes_lt c1.send hInv1.1.2.2.2.1 hInv1.1.2.2.2.2
              have hzero' : ¬(min (u32satAdd sent c1.sender_maximum_segment_size)
                  (min c1.send.window_bytes (min available.total u32max)) - sent = 0) := by
                simpa using hzero
              have hkey : ∀ extra : Nat, extra ≤ 1 →
                  seqSub c1.send.next c1.send.unacked +
                  ((min (u32satAdd sent c1.sender_maximum_segment_size)
                    (min c1.send.window_bytes (min available.total u32max)) - sent) +
                   extra) < seqHalf := by
                intro extra hextra
                rw [heqF]
                have hhalf : seqHalf = 2147483648 := rfl
                omega
              split
              case _ hfin =>
                split
                · exact inv_after_new_data _ e.four_tuple _
                    (inv_change_state c1 .FinWait hInv1 (by decide))
                    (by simp [Connection.change_state]) (hkey 1 (by omega))
                · exact inv_after_new_data _ e.four_tuple _
                    (inv_change_state c1 .LastAck hInv1 (by decide))
                    (by simp [Connection.change_state]) (hkey 1 (by omega))
                · exact inv_after_new_data c1 e.four_tuple _ hInv1 hnot1
                    (hkey 1 (by omega))
              case _ hfin =>
                exact inv_after_new_data c1 e.four_tuple _ hInv1 hnot1
                  (hkey 0 (by omega))
          case _ hsm =>
            split at h
            · injection h with h
              subst h
              exact inv_segment_ack_all _ e.four_tuple
                (inv_rearm_ack_timer c1 t hInv1)
            · injection h with h
              subst h
              exact hInv1
        case _ hle => cases heqF

theorem inv_select_send_segment (c : Connection) (available : AvailableBytes)
    (t : Int) (e : EntryKey) (r : Connection × Option Segment) (hInv : Inv c)
    (hnotSyn : c.current ≠ .SynSent)
    (h : c.select_send_segment available t e = some r) : Inv r.1 := by
  simp only [Connection.select_send_segment, Connection.restart_idle] at h
  split at h <;>
    first
      | exact inv_select_send_body c available t e r hInv hnotSyn h
      | exact inv_select_send_body _ available t e r
          (inv_restart_window c hInv) hnotSyn h

theorem inv_map_out (x : Option (Connection × Option Segment)) (c' : Connection)
    (o : OutSignals) (hstep : ∀ r, x = some r → Inv r.1)
    (h : (x.map fun r => match r with
          | (cs, some s) => (cs, OutSignals.ofSegment s)
          | (cs, none) => (cs, OutSignals.none)) = some (c', o)) : Inv c' := by
  rw [Option.map_eq_some'] at h
  obtain ⟨r, hr, hfr⟩ := h
  rcases r with ⟨cc, s⟩
  have hi := hstep (cc, s) hr
  cases s
  · obtain rfl : cc = c' := congrArg Prod.fst hfr
    exact hi
  · obtain rfl : cc = c' := congrArg Prod.fst hfr
    exact hi

theorem inv_next_send_segment (c c' : Connection) (available : AvailableBytes)
    (t : Int) (e : EntryKey) (o : OutSignals) (hInv : Inv c)
    (h : c.next_send_segment available t e = some (c', o)) : Inv c' := by
  unfold Connection.next_send_segment at h
  split at h <;> rename_i hc
  · exact inv_map_out _ c' o
      (fun r hr => inv_select_send_segment c _ t e r hInv (by simp [hc]) hr) h
  · exact inv_map_out _ c' o
      (fun r hr => inv_select_send_segment c _ t e r hInv (by simp [hc]) hr) h
  · exact inv_map_out _ c' o
      (fun r hr => inv_select_send_segment c _ t e r hInv (by simp [hc]) hr) h
  · exact inv_map_out _ c' o
      (fun r hr => inv_select_send_segment c _ t e r hInv (by simp [hc]) hr) h
  · exact inv_map_out _ c' o
      (fun r hr => inv_select_send_segment c _ t e r hInv (by simp [hc]) hr) h
  · -- Closed
    split at h
    case _ c2 s heq =>
      injection h with h1
      have hi := inv_ensure_closed_ack c e.four_tuple hInv
      rw [heq] at hi
      obtain rfl : c2 = c' := congrArg Prod.fst h1
      exact hi
    case _ c2 heq =>
      injection h with h1
      have hi := inv_ensure_closed_ack c e.four_tuple hInv
      rw [heq] at hi
      obtain rfl : c2 = c' := congrArg Prod.fst h1
      exact hi
  · -- TimeWait
    injection h with h1
    obtain rfl : (c.ensure_time_wait t e).1 = c' := congrArg Prod.fst h1
    exact inv_ensure_time_wait c t e hInv
  · exact inv_map_out _ c' o
      (fun r hr => inv_select_syn_retransmit c t e r hInv hr) h
  · exact inv_map_out _ c' o
      (fun r hr => inv_select_syn_retransmit c t e r hInv hr) h
  · -- Listen
    injection h with h1
    obtain rfl : c = c' := congrArg Prod.fst h1
    exact hInv

theorem inv_arrives (c : Connection) (p : InPacket) (e : EntryKey)
    (r : Connection × EntryKey × Signals) (hInv : Inv c) (hWf : p.segment.Wf)
    (h : c.arrives p e = some r) : Inv r.1 := by
  unfold Connection.arrives at h
  split at h <;> rename_i hc
  · injection h with h1
    rw [← h1]
    exact hInv
  · injection h with h1
    rw [← h1]
    exact inv_arrives_listen c p e hInv
  · injection h with h1
    rw [← h1]
    exact inv_arrives_syn_sent c p e hInv hc hWf
  · injection h with h1
    rw [← h1]
    exact inv_arrives_established c p e hInv (by simp [hc]) hWf
  · injection h with h1
    rw [← h1]
    exact inv_arrives_established c p e hInv (by simp [hc]) hWf
  · cases h

/-- Every handler call preserves the invariant. -/
theorem inv_step (c c' : Connection) (h : Step c c') (hInv : Inv c) : Inv c' := by
  cases h
  · rename_i t e heq
    exact inv_openConn _ _ t e none hInv heq
  · rename_i p e e' s hWf heq
    exact inv_arrives _ p e _ hInv hWf heq
  · rename_i m
    exact inv_set_recv_ack _ m hInv
  · rename_i a t e o heq
    exact inv_next_send_segment _ _ a t e o hInv heq

/-- The invariant holds in every reachable connection state. -/
theorem inv_reachable (c : Connection) (h : Reachable c) : Inv c := by
  induction h with
  | refl => exact inv_zeroed
  | tail _hab hbc ih => exact inv_step _ _ hbc ih

/-- Build segment well-formedness from the `getD`-style bounds, which are
decidable on concrete segments. -/
theorem mk_wf (r : tcp.Repr) (h1 : r.seq_number < seqMod)
    (h2 : r.ack_number.getD 0 < seqMod) (h3 : r.payload_len < 65536)
    (h4 : r.window_len < 65536) (h5 : r.window_scale.getD 0 ≤ 14)
    (h6 : r.max_seg_size.getD 0 < 65536) : r.Wf := by
  refine ⟨h1, ?_, h3, h4, ?_, ?_⟩
  · intro a ha
    rw [ha] at h2
    simpa using h2
  · intro w hw
    rw [hw] at h5
    simpa using h5
  · intro m hm
    rw [hm] at h6
    simpa using h6

/-! ## Claims -/

/-- C1: on a valid SYN in `Listen`, `arrives` does remap the remote, record
IRS, set `recv.next := seq+1`, draw the ISN and set
`send.{initial_seq, unacked} = ISN`, `send.next = ISN + 1`, and answer with
`seq = ISN`, `ack = recv.next` — but the answer's flags are `RST`, not
`SYN|ACK`, and the connection stays in `Listen` instead of transitioning to
`SynReceived`.  This evaluates the code at the failing input, exhibiting the
divergence from the claim (and from RFC 793; the spec flags the RST as a
defect in §9). -/
theorem C1_listen_syn_answers_rst_and_stays_listen :
    exListenOut.1.current = .Listen ∧
    exListenOut.1.current ≠ .SynReceived ∧
    exListenOut.2.1.tuple.remote = 7 ∧
    exListenOut.1.recv.initial_seq = 42 ∧
    exListenOut.1.recv.next = 43 ∧
    exListenOut.1.send.initial_seq = 1000 ∧
    exListenOut.1.send.unacked = 1000 ∧
    exListenOut.1.send.next = 1001 ∧
    (exListenOut.2.2.answer.map tcp.Repr.flags) = some tcp.Flags.RST ∧
    (exListenOut.2.2.answer.map (fun r => r.flags.syn)) = some false ∧
    (exListenOut.2.2.answer.map tcp.Repr.seq_number) = some 1000 ∧
    (exListenOut.2.2.answer.map tcp.Repr.ack_number) = some (some 43) := by
  decide

/-- C2 counterexample: `arrives` in state `SynReceived` hits the
`unimplemented!()` arm and aborts (modelled as `none`), so it is not total in
that state. -/
theorem C2_counterexample_syn_received_aborts :
    ({ Connection.zeroed with current := .SynReceived } : Connection).arrives
      exSynPacket exIsnEntry = none := rfl

/-- C2 amended: `arrives` returns `Signals` without aborting in the five
implemented states `Closed`, `Listen`, `SynSent`, `Established` and `FinWait`;
in `SynReceived`, `Closing`, `CloseWait`, `LastAck` and `TimeWait` it hits
`unimplemented!()`. -/
theorem C2_arrives_total_on_implemented_states (c : Connection) (p : InPacket)
    (e : EntryKey)
    (h : c.current = .Closed ∨ c.current = .Listen ∨ c.current = .SynSent ∨
         c.current = .Established ∨ c.current = .FinWait) :
    (c.arrives p e).isSome = true := by
  rcases h with h | h | h | h | h <;> simp [Connection.arrives, h]

/-- C2 witness: the zeroed (Closed) connection accepts any packet without
aborting. -/
theorem C2_arrives_total_witness :
    (Connection.zeroed.arrives exSynPacket exIsnEntry).isSome = true :=
  C2_arrives_total_on_implemented_states Connection.zeroed exSynPacket
    exIsnEntry (Or.inl rfl)

/-- An ACK strictly inside `(unacked, next]` classifies as `Updated` and
advances `unacked`. -/
theorem incoming_ack_updated (s : Send) (a : Nat)
    (h1 : seqLtb s.unacked a = true) (h2 : seqLeb a s.next = true) :
    s.incoming_ack a = (.Updated (seqSub a s.unacked), { s with unacked := a }) := by
  have hA : seqLtb a s.unacked = false := by
    unfold seqLtb seqSub seqMod seqHalf at *
    simp only [Bool.and_eq_true, decide_eq_true_eq] at h1
    simp only [Bool.and_eq_false_iff, decide_eq_false_iff_not, not_lt]
    omega
  have hB : (a == s.unacked) = false := by
    unfold seqLtb seqSub seqMod seqHalf at h1
    simp only [Bool.and_eq_true, decide_eq_true_eq] at h1
    simp only [beq_eq_false_iff_ne]
    intro he
    subst he
    omega
  unfold Send.incoming_ack
  rw [hA, hB, h2]
  simp

theorem set_recv_ack_flow (c : Connection) (m : ReceivedSegment) :
    (c.set_recv_ack m).flow_control = c.flow_control := by
  show (c.recv_ack_transition m).flow_control = c.flow_control
  unfold Connection.recv_ack_transition Connection.change_state
  cases c.current <;> cases m.fin <;> cases c.send.next == c.send.unacked <;> rfl

theorem set_recv_ack_dup (c : Connection) (m : ReceivedSegment) :
    (c.set_recv_ack m).duplicate_ack = c.duplicate_ack := by
  show (c.recv_ack_transition m).duplicate_ack = c.duplicate_ack
  unfold Connection.recv_ack_transition Connection.change_state
  cases c.current <;> cases m.fin <;> cases c.send.next == c.send.unacked <;> rfl

/-- C3 counterexample: an `Established` connection in fast recovery
(`duplicate_ack = 1`, `ssthresh = 8`, `cwnd = 4`) receives an acceptable
non-SYN pure ACK of 50 ∈ (0, 100].  The claim demands
`congestion_window = ssthresh = 8` after `arrives`, but the code first sets
`cwnd := ssthresh`, clears `duplicate_ack`, and then runs `window_update`,
which — no longer seeing fast recovery — doubles the window: `cwnd = 16`. -/
theorem C3_counterexample_window_doubled :
    exC3Conn.duplicate_ack = 1 ∧
    exC3Conn.flow_control.ssthresh = 8 ∧
    exC3Conn.ingress_acceptable exC3Packet.segment = true ∧
    exC3Packet.segment.flags.syn = false ∧
    seqLtb exC3Conn.send.unacked 50 = true ∧
    seqLeb 50 exC3Conn.send.next = true ∧
    exC3Out.1.duplicate_ack = 0 ∧
    exC3Out.1.flow_control.congestion_window = 16 ∧
    exC3Out.1.flow_control.ssthresh = 8 ∧
    exC3Out.1.flow_control.congestion_window ≠ exC3Out.1.flow_control.ssthresh := by
  decide

/-- C3 amended: exiting fast recovery on a genuine ACK clears
`duplicate_ack`, but the congestion window ends at the saturated double of
`ssthresh`, because `window_update` runs in slow-start right after the code
set `cwnd := ssthresh` and cleared the duplicate counter. -/
theorem C3_amended_fast_recovery_exit (c : Connection) (p : InPacket)
    (e : EntryKey) (a : Nat)
    (hst : c.current = .Established ∨ c.current = .FinWait)
    (hdup : 0 < c.duplicate_ack)
    (hacc : c.ingress_acceptable p.segment = true)
    (hsyn : p.segment.flags.syn = false)
    (hack : p.segment.ack_number = some a)
    (h1 : seqLtb c.send.unacked a = true)
    (h2 : seqLeb a c.send.next = true) :
    ∃ r, c.arrives p e = some r ∧
      r.1.flow_control.congestion_window = u32satMul2 c.flow_control.ssthresh ∧
      r.1.flow_control.ssthresh = c.flow_control.ssthresh ∧
      r.1.duplicate_ack = 0 := by
  rcases hst with h | h <;>
  · simp only [Connection.arrives, h]
    simp only [Connection.arrives_established, hacc, hsyn, hack,
      Bool.not_true, Bool.false_eq_true, if_false]
    rw [incoming_ack_updated c.send a h1 h2]
    simp only [hdup, if_true, Connection.window_update]
    split
    · refine ⟨_, rfl, ?_, ?_, ?_⟩ <;>
        simp [set_recv_ack_flow, set_recv_ack_dup]
    · refine ⟨_, rfl, ?_, ?_, ?_⟩ <;> simp

/-- C3 witness: the amended statement at the concrete fast-recovery input. -/
theorem C3_amended_witness :
    ∃ r, exC3Conn.arrives exC3Packet exZeroEntry = some r ∧
      r.1.flow_control.congestion_window
        = u32satMul2 exC3Conn.flow_control.ssthresh ∧
      r.1.flow_control.ssthresh = exC3Conn.flow_control.ssthresh ∧
      r.1.duplicate_ack = 0 :=
  C3_amended_fast_recovery_exit exC3Conn exC3Packet exZeroEntry 50
    (Or.inl rfl) (by decide) (by decide) (by decide) rfl (by decide) (by decide)

/-- C4: `set_recv_ack` computes `end = begin + sequence_len` and
`acked_all = (send.next == send.unacked)`, performs exactly the transitions of
the table — `(Established, fin)` and `(SynReceived, fin)` to `CloseWait`;
`(FinWait, fin, acked_all)` and `(Closing, _, acked_all)` to `TimeWait`
arming `retransmission_timer := timestamp + 2·RTO`; `(FinWait, fin,
¬acked_all)` to `Closing`; everything else unchanged — then sets
`recv.next := end` and `ack_timer := min(ack_timer, When(timestamp +
ack_timeout))`.  The send half is untouched. -/
theorem C4_set_recv_ack_table (c : Connection) (m : ReceivedSegment) :
    (c.set_recv_ack m).recv.next = seqAdd m.begin_seq m.sequence_len ∧
    (c.set_recv_ack m).ack_timer
      = c.ack_timer.min (.when (m.timestamp + c.ack_timeout)) ∧
    (c.set_recv_ack m).current
      = (if (c.current = .Established ∨ c.current = .SynReceived) ∧ m.fin = true
          then .CloseWait
         else if ((c.current = .FinWait ∧ m.fin = true) ∨ c.current = .Closing)
            ∧ c.send.next = c.send.unacked then .TimeWait
         else if c.current = .FinWait ∧ m.fin = true then .Closing
         else c.current) ∧
    (c.set_recv_ack m).retransmission_timer
      = (if ((c.current = .FinWait ∧ m.fin = true) ∨ c.current = .Closing)
            ∧ c.send.next = c.send.unacked
         then m.timestamp + 2 * c.retransmission_timeout
         else c.retransmission_timer) ∧
    (c.set_recv_ack m).send = c.send := by
  unfold Connection.set_recv_ack Connection.recv_ack_transition
    Connection.change_state ReceivedSegment.sequence_end
  by_cases hA : c.send.next = c.send.unacked
  · have hA' : (c.send.next == c.send.unacked) = true := by simp [hA]
    cases hc : c.current <;> cases hf : m.fin <;> simp [hA, hA', hc, hf]
  · have hA' : (c.send.next == c.send.unacked) = false := by simp [hA]
    cases hc : c.current <;> cases hf : m.fin <;> simp [hA, hA', hc, hf]

/-- C5 counterexample: with `payload_len = 0` and `recv.window = 0`, the code
accepts a segment whose sequence number equals `recv.next`, but the claim's
window condition `[recv.next, recv.next + 0)` is empty and its payload
disjunct is vacuous — so the claimed equivalence fails at this input. -/
theorem C5_counterexample_zero_window :
    exC5Conn.ingress_acceptable exC5Repr = true ∧
    ¬(exC5Conn.recv.in_window exC5Repr.seq_number = true ∨
      (0 < exC5Repr.payload_len ∧
        exC5Conn.recv.in_window
          (seqSub (seqAdd exC5Repr.seq_number exC5Repr.payload_len) 1) = true)) := by
  decide

/-- C5 amended: `ingress_acceptable` follows the four-case RFC 793 test —
when both the payload and the receive window are zero it accepts exactly
`seq_number = recv.next`; otherwise it accepts iff the sequence number is in
the receive window, or the segment has payload and its last byte is. -/
theorem C5_amended_acceptability (c : Connection) (r : tcp.Repr) :
    c.ingress_acceptable r = true ↔
      (if r.payload_len = 0 ∧ c.recv.window = 0 then r.seq_number = c.recv.next
       else c.recv.in_window r.seq_number = true ∨
         (0 < r.payload_len ∧
           c.recv.in_window (seqSub (seqAdd r.seq_number r.payload_len) 1) = true)) := by
  unfold Connection.ingress_acceptable
  cases hp : r.payload_len <;> cases hw : c.recv.window <;>
    simp [Receive.in_window, containsInWindow, hp, hw]

theorem ex_open_step : Step Connection.zeroed exSynSentConn :=
  Step.openStep Connection.zeroed exSynSentConn 0 exZeroEntry rfl

theorem exC6_step2 : Step exSynSentConn exC6Trip.1 :=
  Step.arrivesStep exSynSentConn exC6Trip.1 exC6Packet exZeroEntry
    exC6Trip.2.1 exC6Trip.2.2
    (mk_wf _ (by decide) (by decide) (by decide) (by decide) (by decide)
      (by decide)) rfl

/-- C6 counterexample: a reachable state — active open, then the peer's
SYN+ACK carrying ISN 2³¹ — in which `recv.acked` (still its initial 0) is
*not* below `recv.next = 2³¹ + 1` in windowed ordering, refuting the
`recv.acked ≤ recv.next` half of the claimed invariant. -/
theorem C6_counterexample_recv_acked_order :
    Reachable exC6Trip.1 ∧
    exC6Trip.1.recv.acked = 0 ∧
    exC6Trip.1.recv.next = 2147483649 ∧
    seqLeb exC6Trip.1.recv.acked exC6Trip.1.recv.next = false := by
  refine ⟨?_, by decide, by decide, by decide⟩
  exact Relation.ReflTransGen.tail
    (Relation.ReflTransGen.tail Relation.ReflTransGen.refl ex_open_step)
    exC6_step2

/-- C6 amended: in every reachable connection state,
`send.unacked ≤ send.next` holds in windowed ordering (the `recv.acked ≤
recv.next` half of the claim fails on reachable states, see the
counterexample). -/
theorem C6_amended_send_cursor_order (c : Connection) (h : Reachable c) :
    seqLeb c.send.unacked c.send.next = true := by
  have hinv := (inv_reachable c h).1.2.2.1
  unfold seqLeb
  exact decide_eq_true hinv

/-- C6 witness: the invariant at the zeroed initial state. -/
theorem C6_amended_witness :
    seqLeb Connection.zeroed.send.unacked Connection.zeroed.send.next = true :=
  C6_amended_send_cursor_order Connection.zeroed Relation.ReflTransGen.refl

theorem exC7_step2 : Step exSynSentConn exC7Trip.1 :=
  Step.arrivesStep exSynSentConn exC7Trip.1 exC7Packet exZeroEntry
    exC7Trip.2.1 exC7Trip.2.2
    (mk_wf _ (by decide) (by decide) (by decide) (by decide) (by decide)
      (by decide)) rfl

/-- C7 counterexample: a reachable state — active open, then a SYN+ACK whose
sequence number wraps `recv.next` to 0 = `recv.acked` — in which
`recv.acked = recv.next` yet the delayed-ACK timer is armed
(`ack_timer = When 0 ≠ Never`), refuting the claimed equivalence in the
`recv.acked = recv.next → ack_timer = Never` direction. -/
theorem C7_counterexample_timer_armed_with_nothing_to_ack :
    Reachable exC7Trip.1 ∧
    exC7Trip.1.recv.acked = exC7Trip.1.recv.next ∧
    exC7Trip.1.ack_timer ≠ .never := by
  refine ⟨?_, by decide, by decide⟩
  exact Relation.ReflTransGen.tail
    (Relation.ReflTransGen.tail Relation.ReflTransGen.refl ex_open_step)
    exC7_step2

/-- C7 amended: in every reachable state, the forward direction holds — if
the delayed-ACK timer is `Never` then everything received has been publicly
acknowledged (`recv.acked = recv.next`).  The converse fails, see the
counterexample. -/
theorem C7_amended_never_implies_acked (c : Connection) (h : Reachable c)
    (ht : c.ack_timer = .never) : c.recv.acked = c.recv.next :=
  (inv_reachable c h).2.1 ht

/-- C7 witness: the forward direction at the zeroed initial state. -/
theorem C7_amended_witness :
    Connection.zeroed.recv.acked = Connection.zeroed.recv.next :=
  C7_amended_never_implies_acked Connection.zeroed
    Relation.ReflTransGen.refl rfl

/-- C8: in state `Closed`, `arrives` never changes the connection or the
entry; on RST it answers nothing; on a segment with an ACK number it answers
an RST with that number as sequence number and no ACK; otherwise it answers
an RST with sequence number 0 acking `seq_number + sequence_len`. -/
theorem C8_closed_responder (c : Connection) (p : InPacket) (e : EntryKey)
    (hc : c.current = .Closed) :
    c.arrives p e = some (c, e, c.arrives_closed p) ∧
    (p.segment.flags.rst = true → c.arrives_closed p = Signals.default) ∧
    (∀ a, p.segment.flags.rst = false → p.segment.ack_number = some a →
      ∃ rep, (c.arrives_closed p).answer = some rep ∧
        rep.flags = tcp.Flags.RST ∧ rep.seq_number = a ∧ rep.ack_number = none ∧
        (c.arrives_closed p).delete = false ∧
        (c.arrives_closed p).reset = false) ∧
    (p.segment.flags.rst = false → p.segment.ack_number = none →
      ∃ rep, (c.arrives_closed p).answer = some rep ∧
        rep.flags = tcp.Flags.RST ∧ rep.seq_number = 0 ∧
        rep.ack_number
          = some (seqAdd p.segment.seq_number p.segment.sequence_len) ∧
        (c.arrives_closed p).delete = false ∧
        (c.arrives_closed p).reset = false) := by
  refine ⟨by simp [Connection.arrives, hc], ?_, ?_, ?_⟩
  · intro hrst
    simp [Connection.arrives_closed, hrst]
  · intro a hrst hack
    simp only [Connection.arrives_closed, hrst, hack, Bool.false_eq_true,
      if_false]
    exact ⟨_, rfl, rfl, rfl, rfl, rfl, rfl⟩
  · intro hrst hack
    simp only [Connection.arrives_closed, hrst, hack, Bool.false_eq_true,
      if_false]
    exact ⟨_, rfl, rfl, rfl, rfl, rfl, rfl⟩

/-- C8 witness: the stateless RST responder at the spec's concrete scenario —
an ACK of 100 at a `Closed` slot draws `RST seq=100` with no state change. -/
theorem C8_closed_responder_witness :
    Connection.zeroed.arrives exC8Packet exIsnEntry
      = some (Connection.zeroed, exIsnEntry, Connection.zeroed.arrives_closed exC8Packet) ∧
    ∃ rep, (Connection.zeroed.arrives_closed exC8Packet).answer = some rep ∧
      rep.flags = tcp.Flags.RST ∧ rep.seq_number = 100 ∧ rep.ack_number = none := by
  have h := C8_closed_responder Connection.zeroed exC8Packet exIsnEntry rfl
  obtain ⟨rep, h1, h2, h3, h4, _, _⟩ := h.2.2.1 100 rfl rfl
  exact ⟨h.1, rep, h1, h2, h3, h4⟩

/-- C9: `open` fails with `Illegal` exactly when the connection is in neither
`Closed` nor `Listen`, leaving the connection untouched; on success the state
becomes `SynSent`, the initial sequence number is drawn from the entry's ISN
generator with `unacked = ISS` and `next = ISS + 1`, and the retransmission
timer is set to the call time, scheduling immediate transmission. -/
theorem C9_open_illegal_iff (c : Connection) (t : Int) (e : EntryKey) :
    ((c.openConn t e).2 = some .Illegal ↔
      ¬(c.current = .Closed ∨ c.current = .Listen)) ∧
    ((c.openConn t e).2 = some .Illegal → (c.openConn t e).1 = c) ∧
    ((c.openConn t e).2 = none →
      (c.openConn t e).1.current = .SynSent ∧
      (c.openConn t e).1.send.initial_seq = e.initial_seq_num t ∧
      (c.openConn t e).1.send.unacked = e.initial_seq_num t ∧
      (c.openConn t e).1.send.next = seqAdd (e.initial_seq_num t) 1 ∧
      (c.openConn t e).1.retransmission_timer = t) := by
  cases hc : c.current <;>
    simp [Connection.openConn, Connection.change_state, hc]

/-- C9 witness: opening the zeroed (Closed) connection at time 0 succeeds and
drives it to `SynSent` with `ISS = 1000`, `next = 1001`, timer 0. -/
theorem C9_open_witness :
    (Connection.zeroed.openConn 0 exIsnEntry).2 = none ∧
    (Connection.zeroed.openConn 0 exIsnEntry).1.current = .SynSent ∧
    (Connection.zeroed.openConn 0 exIsnEntry).1.send.unacked = 1000 ∧
    (Connection.zeroed.openConn 0 exIsnEntry).1.send.next = 1001 ∧
    (Connection.zeroed.openConn 0 exIsnEntry).1.retransmission_timer = 0 := by
  have h := (C9_open_illegal_iff Connection.zeroed 0 exIsnEntry).2.2 (by decide)
  exact ⟨by decide, h.1, by decide, by decide, h.2.2.2.2⟩

/-- In the new-data branch of the egress selector — no fast retransmit, no
retransmission timeout, in-flight bytes strictly below both the scaled send
window and the buffered bytes — a positive MSS yields a segment with a
non-empty range, while a zero MSS trips the range assertion. -/
theorem select_body_new_data (c1 : Connection) (av : AvailableBytes) (t : Int)
    (e : EntryKey)
    (hdup : c1.duplicate_ack < 2)
    (hret : ¬(c1.retransmission_timer < t))
    (hle : seqLeb c1.send.unacked c1.send.next = true)
    (hlt : seqSub c1.send.next c1.send.unacked
        < min c1.send.window_bytes (min av.total u32max)) :
    (1 ≤ c1.sender_maximum_segment_size →
      ∃ c' seg, c1.select_send_body av t e = some (c', some seg) ∧
        seg.range.1 < seg.range.2) ∧
    (c1.sender_maximum_segment_size = 0 →
      c1.select_send_body av t e = none) := by
  have hdup' : ¬(c1.duplicate_ack ≥ 2) := by omega
  have hif : c1.send.in_flight = some (seqSub c1.send.next c1.send.unacked) := by
    simp [Send.in_flight, hle]
  have hsub : seqSub c1.send.next c1.send.unacked ≤ u32max := by
    have := seqSub_lt_mod c1.send.next c1.send.unacked
    unfold seqMod u32max at *
    omega
  simp only [Connection.select_send_body, if_neg hdup', if_neg hret, hif]
  rw [if_pos hlt]
  constructor
  · intro hmss
    have hne : (min (u32satAdd (seqSub c1.send.next c1.send.unacked)
        c1.sender_maximum_segment_size)
        (min c1.send.window_bytes (min av.total u32max))
          - seqSub c1.send.next c1.send.unacked == 0) = false := by
      simp only [beq_eq_false_iff_ne, ne_eq]
      unfold u32satAdd u32max at *
      omega
    rw [hne]
    simp only [Bool.false_eq_true, if_false]
    refine ⟨_, _, rfl, ?_⟩
    have hne' := hne
    simp only [beq_eq_false_iff_ne, ne_eq] at hne'
    simp only []
    omega
  · intro h0
    have heq : (min (u32satAdd (seqSub c1.send.next c1.send.unacked)
        c1.sender_maximum_segment_size)
        (min c1.send.window_bytes (min av.total u32max))
          - seqSub c1.send.next c1.send.unacked == 0) = true := by
      simp only [beq_iff_eq]
      rw [h0]
      unfold u32satAdd u32max at *
      omega
    rw [heq]
    simp

theorem restart_idle_duplicate_ack (c : Connection) (t : Int) :
    (c.restart_idle t).duplicate_ack = c.duplicate_ack := by
  simp only [Connection.restart_idle]
  split <;> rfl

theorem restart_idle_retransmission_timer (c : Connection) (t : Int) :
    (c.restart_idle t).retransmission_timer = c.retransmission_timer := by
  simp only [Connection.restart_idle]
  split <;> rfl

theorem restart_idle_send (c : Connection) (t : Int) :
    (c.restart_idle t).send = c.send := by
  simp only [Connection.restart_idle]
  split <;> rfl

theorem restart_idle_smss (c : Connection) (t : Int) :
    (c.restart_idle t).sender_maximum_segment_size
      = c.sender_maximum_segment_size := by
  simp only [Connection.restart_idle]
  split <;> rfl

/-- C10: a `next_send_segment` call in `Established` or `CloseWait` that
reaches the new-data branch — fewer than two duplicate ACKs, retransmission
timer not yet expired, and in-flight bytes strictly below the scaled send
window and the buffered bytes — produces a segment with a non-empty byte
range when `sender_maximum_segment_size ≥ 1` (the internal range assertion
succeeds), and aborts on the assertion when the MSS is 0, as on a connection
whose MSS was never negotiated. -/
theorem C10_new_data_range (c : Connection) (av : AvailableBytes) (t : Int)
    (e : EntryKey)
    (hst : c.current = .Established ∨ c.current = .CloseWait)
    (hdup : c.duplicate_ack < 2)
    (hret : ¬(c.retransmission_timer < t))
    (hle : seqLeb c.send.unacked c.send.next = true)
    (hlt : seqSub c.send.next c.send.unacked
        < min c.send.window_bytes (min av.total u32max)) :
    (1 ≤ c.sender_maximum_segment_size →
      ∃ c' seg, c.next_send_segment av t e = some (c', OutSignals.ofSegment seg) ∧
        seg.range.1 < seg.range.2) ∧
    (c.sender_maximum_segment_size = 0 → c.next_send_segment av t e = none) := by
  have hbody := select_body_new_data (c.restart_idle t) av t e
    (by rw [restart_idle_duplicate_ack]; exact hdup)
    (by rw [restart_idle_retransmission_timer]; exact hret)
    (by rw [restart_idle_send]; exact hle)
    (by rw [restart_idle_send]; exact hlt)
  rw [restart_idle_smss] at hbody
  rcases hst with h | h <;>
  · simp only [Connection.next_send_segment, h, Connection.select_send_segment]
    constructor
    · intro hmss
      obtain ⟨c', seg, hsel, hrange⟩ := hbody.1 hmss
      refine ⟨c', seg, ?_, hrange⟩
      rw [hsel]
      rfl
    · intro h0
      rw [hbody.2 h0]
      rfl

/-- C10 witness: the concrete poll emits a segment covering bytes `[0, 10)`. -/
theorem C10_new_data_range_witness :
    ∃ c' seg, exC10Conn.next_send_segment ⟨false, 100⟩ 3 exIsnEntry
        = some (c', OutSignals.ofSegment seg) ∧
      seg.range.1 < seg.range.2 :=
  (C10_new_data_range exC10Conn ⟨false, 100⟩ 3 exIsnEntry (Or.inl rfl)
    (by decide) (by decide) (by decide) (by decide)).1 (by decide)

end Ethox
